import Mathlib

/-
  Verification development for the ShopMetrics order service
  (src/services/order-service/main.py).

  The service is embedded shallowly: the relational store (tables `cart`,
  `cart_items`, `products`, `orders`, `order_items`), the Redis cache and
  the SQS queue are explicit components of a `World` state, and each HTTP
  handler becomes a pure function from a `World` (plus its request
  parameters and the values the environment supplies: the clock, the id
  generated by the database, whether ORDER_QUEUE_URL is set) to a new
  `World` together with an `Except` result.

  Monetary values (`Decimal` in Python, `numeric` in SQL) are exact
  fixed-point numbers; they are embedded as integers in minor units, with
  exact arithmetic, matching `Decimal` behaviour on the values at hand.
  JSON payloads tag each number with its representation: `float(total)` in
  the Python source produces a binary floating-point representation on the
  wire, embedded as `WireNumber.floatRepr`; the numeric value carried in
  the tag is kept exact because no claim depends on float rounding, only
  on the representation used.

  Failure of an individual step inside `create_order` is modelled by an
  optional `FailStep` argument naming the step at which the injected
  exception is raised.  The database transaction opened by the handler
  rolls back when any exception escapes the block, so the post-state of a
  failed call keeps the database (and cache) of the pre-state; the one
  non-transactional effect, the SQS publish, keeps whatever was already
  sent.  Intermediate in-transaction states are never observable, so the
  embedding only materialises the committed state.
-/

namespace ShopMetrics

/-- Exact fixed-point monetary amount in minor units (`Decimal` / SQL `numeric`). -/
abbrev Money := Int

/-- Representation of a number in a JSON payload on the wire.
`floatRepr v` is what Python `float(v)` produces: a binary floating-point
representation of `v`; `decimalRepr v` is a fixed-point decimal
representation (e.g. a serialized `Decimal`). -/
inductive WireNumber where
  | floatRepr (v : Money)
  | decimalRepr (v : Money)
deriving DecidableEq

/-- True exactly when the wire value is represented in binary floating point. -/
def WireNumber.isBinaryFloat : WireNumber → Bool
  | .floatRepr _ => true
  | .decimalRepr _ => false

/-- A row of the `cart` table (columns per the INSERT in `create_cart`):
id, user_id, created_at, expires_at.  The table has no lifecycle/status
column. -/
structure CartRow where
  id : String
  userId : String
  createdAt : Nat
  expiresAt : Nat
deriving DecidableEq

/-- A row of the `cart_items` table: cart_id, product_id, quantity, price. -/
structure CartItemRow where
  cartId : String
  productId : String
  quantity : Int
  price : Money
deriving DecidableEq

/-- A row of the `products` table (the columns read by the JOINs). -/
structure ProductRow where
  id : String
  name : String
  imageUrl : String
deriving DecidableEq

/-- A row of the `orders` table: id, user_id, status, total, currency,
created_at, updated_at. -/
structure OrderRow where
  id : String
  userId : String
  status : String
  total : Money
  currency : String
  createdAt : Nat
  updatedAt : Nat
deriving DecidableEq

/-- A row of the `order_items` table: order_id, product_id, quantity, price. -/
structure OrderItemRow where
  orderId : String
  productId : String
  quantity : Int
  price : Money
deriving DecidableEq

/-- The relational store.  There is no outbox table: the schema used by
`main.py` has exactly the five tables below. -/
structure DB where
  carts : List CartRow
  cartItems : List CartItemRow
  products : List ProductRow
  orders : List OrderRow
  orderItems : List OrderItemRow
deriving DecidableEq

/-- The message body `create_order` publishes to SQS (the JSON built at the
`sqs_client.send_message` call): event, order_id, user_id, total,
payment_method_id.  There is no currency field. -/
structure SqsMessage where
  event : String
  orderId : String
  userId : String
  total : WireNumber
  paymentMethodId : String
deriving DecidableEq

/-- One item of the cart view built by `get_cart` (cart_items joined with
products for name and image_url). -/
structure CartItemView where
  cartId : String
  productId : String
  quantity : Int
  price : Money
  name : String
  imageUrl : String
deriving DecidableEq

/-- The cart representation `get_cart` returns and caches. -/
structure CartView where
  id : String
  userId : String
  items : List CartItemView
  createdAt : Nat
deriving DecidableEq

/-- Full state: database, Redis cache (key to cached cart view; TTL expiry
is modelled as absence of the entry), and the SQS queue as the list of
messages sent so far. -/
structure World where
  db : DB
  cache : List (String × CartView)
  sqs : List SqsMessage
deriving DecidableEq

/-- An error surfaced to the HTTP caller: `HTTPException(status_code, detail)`. -/
inductive ApiError where
  | httpError (statusCode : Nat) (detail : String)
deriving DecidableEq

/-- Body of POST /api/orders (`CreateOrderRequest`). -/
structure CreateOrderRequest where
  userId : String
  cartId : String
  shippingAddressId : String
  billingAddressId : String
  paymentMethodId : String
deriving DecidableEq

/-- The JSON object `create_order` returns on success. -/
structure OrderCreatedResponse where
  orderId : String
  status : String
  total : WireNumber
  message : String
deriving DecidableEq

/-- The step of `create_order` at which an injected failure (an exception
from the database driver, the SQS client, or the metrics calls) is
raised.  Steps are listed in execution order. -/
inductive FailStep where
  | fetchItems
  | insertOrder
  | insertItems
  | deleteCart
  | sqsSend
  | metrics
deriving DecidableEq

/-- Redis GET on the cache. -/
def cacheGet (c : List (String × CartView)) (k : String) : Option CartView :=
  (c.find? (fun e => e.1 == k)).map (fun e => e.2)

/-- Redis SETEX on the cache (TTL is modelled by later absence, not time). -/
def cacheSetex (c : List (String × CartView)) (k : String) (v : CartView) :
    List (String × CartView) :=
  (k, v) :: c.filter (fun e => !(e.1 == k))

/-- The error every unexpected exception in `create_order` surfaces as,
via the generic `except Exception` handler. -/
def orderInfraError : ApiError := .httpError 500 "Failed to create order"

/-- GET /api/cart/\x7bcart_id\x7d.  Cache first; on miss, read the cart row,
join its items with products, cache the view for 300 s, return it. -/
def get_cart (w : World) (cartId : String) : World × Except ApiError CartView :=
  match cacheGet w.cache ("cart:" ++ cartId) with
  | some v => (w, .ok v)
  | none =>
    match w.db.carts.find? (fun c => c.id == cartId) with
    | none => (w, .error (.httpError 404 "Cart not found"))
    | some cart =>
      let items := (w.db.cartItems.filter (fun it => it.cartId == cartId)).filterMap
        (fun it => (w.db.products.find? (fun p => p.id == it.productId)).map
          (fun p => CartItemView.mk it.cartId it.productId it.quantity it.price p.name p.imageUrl))
      let result := CartView.mk cart.id cart.userId items cart.createdAt
      ({ w with cache := cacheSetex w.cache ("cart:" ++ cartId) result }, .ok result)

/-- POST /api/orders.  Inside one database transaction: fetch the cart
items (404 "Cart is empty" if none), sum quantity times price, insert the
order row (status `pending`, currency `USD`), insert the order items,
delete the cart items and the cart row, publish the OrderCreated message
to SQS when ORDER_QUEUE_URL is configured, update metrics, and return.
`now` is the clock, `newOrderId` the id the database generates, `failAt`
the optionally injected failing step.  Any exception escaping the block
rolls the transaction back (database and cache as before the call) and
surfaces as `orderInfraError`; an SQS message already sent stays sent,
because the publish is not transactional.  The database-write steps
(insertOrder, insertItems, deleteCart) are only observable through the
committed state, so their failures differ only by the injection point. -/
def create_order (w : World) (req : CreateOrderRequest) (now : Nat)
    (newOrderId : String) (queueConfigured : Bool) (failAt : Option FailStep) :
    World × Except ApiError OrderCreatedResponse :=
  if failAt == some .fetchItems then (w, .error orderInfraError)
  else
    let items := w.db.cartItems.filter (fun it => it.cartId == req.cartId)
    if items.isEmpty then (w, .error (.httpError 404 "Cart is empty"))
    else if failAt == some .insertOrder || failAt == some .insertItems
        || failAt == some .deleteCart then (w, .error orderInfraError)
    else
      let total : Money := (items.map (fun it => it.quantity * it.price)).sum
      let newOrder : OrderRow :=
        { id := newOrderId, userId := req.userId, status := "pending"
          total := total, currency := "USD", createdAt := now, updatedAt := now }
      let newItems := items.map
        (fun it => OrderItemRow.mk newOrderId it.productId it.quantity it.price)
      let committedDb : DB :=
        { w.db with
          carts := w.db.carts.filter (fun c => !(c.id == req.cartId))
          cartItems := w.db.cartItems.filter (fun it => !(it.cartId == req.cartId))
          orders := w.db.orders ++ [newOrder]
          orderItems := w.db.orderItems ++ newItems }
      let resp : OrderCreatedResponse :=
        { orderId := newOrderId, status := "pending"
          total := .floatRepr total, message := "Order created successfully" }
      if queueConfigured then
        if failAt == some .sqsSend then (w, .error orderInfraError)
        else
          let msg : SqsMessage :=
            { event := "OrderCreated", orderId := newOrderId, userId := req.userId
              total := .floatRepr total, paymentMethodId := req.paymentMethodId }
          if failAt == some .metrics then
            ({ w with sqs := w.sqs ++ [msg] }, .error orderInfraError)
          else
            ({ db := committedDb, cache := w.cache, sqs := w.sqs ++ [msg] }, .ok resp)
      else
        if failAt == some .metrics then (w, .error orderInfraError)
        else
          ({ db := committedDb, cache := w.cache, sqs := w.sqs }, .ok resp)

/-- PATCH /api/orders/\x7border_id\x7d/status.  Unconditional UPDATE of
status and updated_at on the matching row; 404 when no row matched.  No
check of the current status and no notion of allowed transitions exist in
the code. -/
def update_order_status (w : World) (orderId : String) (newStatus : String)
    (now : Nat) : World × Except ApiError String :=
  if (w.db.orders.filter (fun o => o.id == orderId)).isEmpty then
    (w, .error (.httpError 404 "Order not found"))
  else
    let upd : OrderRow → OrderRow := fun o =>
      if o.id == orderId then { o with status := newStatus, updatedAt := now } else o
    ({ w with db := { w.db with orders := w.db.orders.map upd } },
     .ok "Order status updated successfully")

/-!  Helper lemmas about the embedded operations. -/

/-- Filtering by a predicate after keeping only its complement yields nothing. -/
theorem filter_filter_not {α : Type} (p : α → Bool) (l : List α) :
    (l.filter (fun a => !(p a))).filter p = [] := by
  induction l with
  | nil => rfl
  | cons a l ih =>
    by_cases hpa : p a = true
    · simp [List.filter_cons, hpa, ih]
    · simp at hpa
      simp [List.filter_cons, hpa, ih]

/-- Searching by a predicate after keeping only its complement finds nothing. -/
theorem find?_filter_not {α : Type} (p : α → Bool) (l : List α) :
    (l.filter (fun a => !(p a))).find? p = none := by
  rw [List.find?_eq_none]
  intro a ha
  have hmem := (List.mem_filter).mp ha
  simp at hmem
  simp [hmem.2]

/-- Evaluation of `create_order` when no fault is injected: the call fails
with the 404 empty-cart error when the cart has no items, and otherwise
commits the conversion, publishing to SQS exactly when ORDER_QUEUE_URL is
configured. -/
theorem create_order_none_eq (w : World) (req : CreateOrderRequest) (now : Nat)
    (oid : String) (q : Bool) :
    create_order w req now oid q none =
      (if (w.db.cartItems.filter (fun it => it.cartId == req.cartId)).isEmpty then
        (w, .error (.httpError 404 "Cart is empty"))
      else
        (World.mk
          (DB.mk
            (w.db.carts.filter (fun c => !(c.id == req.cartId)))
            (w.db.cartItems.filter (fun it => !(it.cartId == req.cartId)))
            w.db.products
            (w.db.orders ++
              [OrderRow.mk oid req.userId "pending"
                ((w.db.cartItems.filter (fun it => it.cartId == req.cartId)).map
                  (fun it => it.quantity * it.price)).sum
                "USD" now now])
            (w.db.orderItems ++
              (w.db.cartItems.filter (fun it => it.cartId == req.cartId)).map
                (fun it => OrderItemRow.mk oid it.productId it.quantity it.price)))
          w.cache
          (if q then
            w.sqs ++
              [SqsMessage.mk "OrderCreated" oid req.userId
                (.floatRepr (((w.db.cartItems.filter
                  (fun it => it.cartId == req.cartId)).map
                    (fun it => it.quantity * it.price)).sum))
                req.paymentMethodId]
          else w.sqs),
         .ok (OrderCreatedResponse.mk oid "pending"
          (.floatRepr (((w.db.cartItems.filter
            (fun it => it.cartId == req.cartId)).map
              (fun it => it.quantity * it.price)).sum))
          "Order created successfully"))) := by
  cases q <;> rfl

/-- Destructuring of a successful fault-free `create_order` call: the shape
of the committed world and of the response. -/
theorem create_order_ok_parts (w w1 : World) (req : CreateOrderRequest) (now : Nat)
    (oid : String) (q : Bool) (resp : OrderCreatedResponse)
    (h : create_order w req now oid q none = (w1, .ok resp)) :
    w1.db.carts = w.db.carts.filter (fun c => !(c.id == req.cartId)) ∧
    w1.db.cartItems = w.db.cartItems.filter (fun it => !(it.cartId == req.cartId)) ∧
    w1.db.products = w.db.products ∧
    w1.db.orders = w.db.orders ++
      [OrderRow.mk oid req.userId "pending"
        ((w.db.cartItems.filter (fun it => it.cartId == req.cartId)).map
          (fun it => it.quantity * it.price)).sum
        "USD" now now] ∧
    w1.db.orderItems = w.db.orderItems ++
      (w.db.cartItems.filter (fun it => it.cartId == req.cartId)).map
        (fun it => OrderItemRow.mk oid it.productId it.quantity it.price) ∧
    w1.cache = w.cache ∧
    (w1.sqs = if q then
        w.sqs ++
          [SqsMessage.mk "OrderCreated" oid req.userId
            (.floatRepr (((w.db.cartItems.filter
              (fun it => it.cartId == req.cartId)).map
                (fun it => it.quantity * it.price)).sum))
            req.paymentMethodId]
      else w.sqs) ∧
    resp = OrderCreatedResponse.mk oid "pending"
      (.floatRepr (((w.db.cartItems.filter
        (fun it => it.cartId == req.cartId)).map
          (fun it => it.quantity * it.price)).sum))
      "Order created successfully" := by
  rw [create_order_none_eq] at h
  by_cases he : (w.db.cartItems.filter (fun it => it.cartId == req.cartId)).isEmpty = true
  · rw [if_pos he] at h
    injection h with h1 h2
    injection h2
  · rw [if_neg he] at h
    injection h with h1 h2
    injection h2 with h3
    refine ⟨?_, ?_, ?_, ?_, ?_, ?_, ?_, h3.symm⟩ <;> rw [← h1]

/-!  Concrete sample states used by the witnesses and counterexamples. -/

/-- A cart of user u1. -/
def sampleCart : CartRow := CartRow.mk "c1" "u1" 0 86400

/-- One cart item: product p1, quantity 2, unit price 10.00 (1000 minor units). -/
def sampleItem : CartItemRow := CartItemRow.mk "c1" "p1" 2 1000

/-- The catalog row for p1. -/
def sampleProduct : ProductRow := ProductRow.mk "p1" "Widget" "img"

/-- A world holding exactly the sample cart with its one item, empty cache,
empty queue. -/
def sampleWorld : World :=
  World.mk (DB.mk [sampleCart] [sampleItem] [sampleProduct] [] []) [] []

/-- The POST /api/orders request converting cart c1 for user u1. -/
def sampleReq : CreateOrderRequest := CreateOrderRequest.mk "u1" "c1" "a1" "a2" "pm1"

/-- A world with no data at all. -/
def emptyWorld : World := World.mk (DB.mk [] [] [] [] []) [] []

/-- The view of cart c1 as `get_cart` would serve and cache it. -/
def staleView : CartView :=
  CartView.mk "c1" "u1" [CartItemView.mk "c1" "p1" 2 1000 "Widget" "img"] 0

/-- The sample world with the cart view already sitting in the cache. -/
def cachedWorld : World :=
  World.mk (DB.mk [sampleCart] [sampleItem] [sampleProduct] [] []) [("cart:c1", staleView)] []

/-- An order already in the terminal status completed. -/
def completedOrder : OrderRow := OrderRow.mk "o9" "u1" "completed" 2000 "USD" 1 2

/-- A world holding exactly the completed order. -/
def orderWorld : World :=
  World.mk (DB.mk [] [] [] [completedOrder] []) [] []

/-- The OrderCreated message the sample conversion publishes. -/
def sampleMsg : SqsMessage :=
  SqsMessage.mk "OrderCreated" "o1" "u1" (.floatRepr 2000) "pm1"

/-- The response the sample conversion returns. -/
def sampleResp : OrderCreatedResponse :=
  OrderCreatedResponse.mk "o1" "pending" (.floatRepr 2000) "Order created successfully"

/-!  Claim theorems. -/

/-- Claim C9 (confirmed): every order created by a successful `create_order`
call is assigned the currency code USD, whatever the request contents and
whatever prices are stored on the cart items (the world and the request
are universally quantified). -/
theorem claim_C9_currency_always_usd (w w1 : World) (req : CreateOrderRequest)
    (now : Nat) (oid : String) (q : Bool) (resp : OrderCreatedResponse)
    (h : create_order w req now oid q none = (w1, .ok resp)) :
    ∃ o : OrderRow, w1.db.orders = w.db.orders ++ [o] ∧ o.id = oid ∧
      o.currency = "USD" := by
  obtain ⟨-, -, -, ho, -, -, -, -⟩ := create_order_ok_parts w w1 req now oid q resp h
  exact ⟨_, ho, rfl, rfl⟩

/-- Claim C9 witness: the sample conversion appends one order with
currency USD. -/
theorem claim_C9_currency_witness :
    ∃ o : OrderRow,
      (create_order sampleWorld sampleReq 5 "o1" true none).1.db.orders =
        sampleWorld.db.orders ++ [o] ∧ o.id = "o1" ∧ o.currency = "USD" :=
  claim_C9_currency_always_usd sampleWorld
    (create_order sampleWorld sampleReq 5 "o1" true none).1 sampleReq 5 "o1" true
    sampleResp (by rfl)

/-- Claim C7 (confirmed): for every order materialised by a successful
`create_order` call, the total recorded on the order row equals the sum,
over the order items written for it, of quantity times the unit price
snapshot — exactly, in fixed-point arithmetic (the embedding computes in
exact integers, as `Decimal` does on these values).  The freshness
hypothesis says the id the database generated was not already used by an
existing order item. -/
theorem claim_C7_total_is_sum (w w1 : World) (req : CreateOrderRequest)
    (now : Nat) (oid : String) (q : Bool) (resp : OrderCreatedResponse)
    (hfresh : ∀ it ∈ w.db.orderItems, it.orderId ≠ oid)
    (h : create_order w req now oid q none = (w1, .ok resp)) :
    ∃ o : OrderRow, w1.db.orders = w.db.orders ++ [o] ∧ o.id = oid ∧
      o.total = ((w1.db.orderItems.filter (fun it => it.orderId == oid)).map
        (fun it => it.quantity * it.price)).sum := by
  obtain ⟨-, -, -, ho, hoi, -, -, -⟩ := create_order_ok_parts w w1 req now oid q resp h
  refine ⟨_, ho, rfl, ?_⟩
  rw [hoi, List.filter_append]
  have h1 : w.db.orderItems.filter (fun it => it.orderId == oid) = [] := by
    rw [List.filter_eq_nil_iff]
    intro it hit
    simp [hfresh it hit]
  have h2 : ((w.db.cartItems.filter (fun it => it.cartId == req.cartId)).map
      (fun it => OrderItemRow.mk oid it.productId it.quantity it.price)).filter
        (fun it => it.orderId == oid) =
      (w.db.cartItems.filter (fun it => it.cartId == req.cartId)).map
        (fun it => OrderItemRow.mk oid it.productId it.quantity it.price) := by
    rw [List.filter_eq_self]
    intro a ha
    obtain ⟨it, -, rfl⟩ := List.mem_map.mp ha
    simp
  rw [h1, h2, List.nil_append, List.map_map]
  rfl

/-- Claim C7 witness: the sample conversion records total 2000 = 2 × 1000,
equal to the sum over its order items. -/
theorem claim_C7_total_witness :
    ∃ o : OrderRow,
      (create_order sampleWorld sampleReq 5 "o1" true none).1.db.orders =
        sampleWorld.db.orders ++ [o] ∧ o.id = "o1" ∧
      o.total = (((create_order sampleWorld sampleReq 5 "o1" true none).1.db.orderItems.filter
        (fun it => it.orderId == "o1")).map (fun it => it.quantity * it.price)).sum :=
  claim_C7_total_is_sum sampleWorld
    (create_order sampleWorld sampleReq 5 "o1" true none).1 sampleReq 5 "o1" true
    sampleResp (by decide) (by rfl)

/-- Claim C2 (amended): a successful `create_order` call with
ORDER_QUEUE_URL configured sends exactly one OrderCreated message for the
new order to the event relay synchronously, during the request and from
inside the transaction block; no OutboxEvent row exists anywhere (the
schema has no outbox table). -/
theorem claim_C2_sync_publish (w w1 : World) (req : CreateOrderRequest)
    (now : Nat) (oid : String) (resp : OrderCreatedResponse)
    (h : create_order w req now oid true none = (w1, .ok resp)) :
    ∃ m : SqsMessage, w1.sqs = w.sqs ++ [m] ∧ m.event = "OrderCreated" ∧
      m.orderId = oid ∧ m.userId = req.userId ∧
      m.paymentMethodId = req.paymentMethodId := by
  obtain ⟨-, -, -, -, -, -, hs, -⟩ := create_order_ok_parts w w1 req now oid true resp h
  rw [if_pos rfl] at hs
  exact ⟨_, hs, rfl, rfl, rfl, rfl⟩

/-- Claim C2 witness: the sample conversion appends exactly one
OrderCreated message to the queue during the request. -/
theorem claim_C2_sync_publish_witness :
    ∃ m : SqsMessage,
      (create_order sampleWorld sampleReq 5 "o1" true none).1.sqs =
        sampleWorld.sqs ++ [m] ∧ m.event = "OrderCreated" ∧ m.orderId = "o1" ∧
      m.userId = "u1" ∧ m.paymentMethodId = "pm1" :=
  claim_C2_sync_publish sampleWorld
    (create_order sampleWorld sampleReq 5 "o1" true none).1 sampleReq 5 "o1"
    sampleResp (by rfl)

/-- Claim C2 counterexample: on the sample conversion the OrderCreated
event is on the queue when the request returns — delivery happened
synchronously during the request, and no outbox row was written anywhere
(the database of the embedding has no outbox table to write to), so the
claim that the event is recorded as a pending OutboxEvent and not
delivered synchronously is false on this input. -/
theorem claim_C2_counterexample :
    (create_order sampleWorld sampleReq 5 "o1" true none).2 = .ok sampleResp ∧
    (create_order sampleWorld sampleReq 5 "o1" true none).1.sqs = [sampleMsg] :=
  ⟨rfl, rfl⟩

/-- Claim C8 (amended): on a successful conversion the order row written
to storage carries the exact fixed-point total and the explicit currency
code USD, but both external payloads — the SQS message and the HTTP
response — carry the total converted to binary floating point by
`float(total)`, and neither payload has a currency field. -/
theorem claim_C8_float_on_wire (w w1 : World) (req : CreateOrderRequest)
    (now : Nat) (oid : String) (resp : OrderCreatedResponse)
    (h : create_order w req now oid true none = (w1, .ok resp)) :
    ∃ o : OrderRow, ∃ m : SqsMessage,
      w1.db.orders = w.db.orders ++ [o] ∧ o.currency = "USD" ∧
      w1.sqs = w.sqs ++ [m] ∧ m.total = .floatRepr o.total ∧
      m.total.isBinaryFloat = true ∧
      resp.total = .floatRepr o.total ∧ resp.total.isBinaryFloat = true := by
  obtain ⟨-, -, -, ho, -, -, hs, hr⟩ := create_order_ok_parts w w1 req now oid true resp h
  rw [if_pos rfl] at hs
  subst hr
  exact ⟨_, _, ho, rfl, hs, rfl, rfl, rfl, rfl⟩

/-- Claim C8 witness: on the sample conversion the stored order keeps the
exact total with currency USD while the queue message and the response
carry binary-float representations. -/
theorem claim_C8_float_on_wire_witness :
    ∃ o : OrderRow, ∃ m : SqsMessage,
      (create_order sampleWorld sampleReq 5 "o1" true none).1.db.orders =
        sampleWorld.db.orders ++ [o] ∧ o.currency = "USD" ∧
      (create_order sampleWorld sampleReq 5 "o1" true none).1.sqs =
        sampleWorld.sqs ++ [m] ∧ m.total = .floatRepr o.total ∧
      m.total.isBinaryFloat = true ∧
      sampleResp.total = .floatRepr o.total ∧ sampleResp.total.isBinaryFloat = true :=
  claim_C8_float_on_wire sampleWorld
    (create_order sampleWorld sampleReq 5 "o1" true none).1 sampleReq 5 "o1"
    sampleResp (by rfl)

/-- Claim C8 counterexample: the sample conversion returns its total to
the caller as a binary floating-point value (Python `float(total)`), and
the message placed on the queue carries a binary floating-point total as
well — monetary values do cross the wire in binary floating point, so the
claim is false on this input. -/
theorem claim_C8_counterexample :
    (create_order sampleWorld sampleReq 5 "o1" true none).2 = .ok sampleResp ∧
    sampleResp.total = .floatRepr 2000 ∧
    sampleResp.total.isBinaryFloat = true ∧
    (create_order sampleWorld sampleReq 5 "o1" true none).1.sqs.map
      (fun m => m.total.isBinaryFloat) = [true] :=
  ⟨rfl, rfl, rfl, rfl⟩

/-- Claim C1 (amended): with concurrent calls modelled as serialized
transactions, at most one `create_order` call on a given cart id succeeds:
the winner deletes the cart items inside its transaction, so any later
call on the same cart id fails — but with the 404 "Cart is empty" error
(the spec's EmptyCartError shape), not a CartUnavailableError, which does
not exist in the code.  The losing call leaves the state unchanged. -/
theorem claim_C1_second_call_empty_cart (w w1 : World) (req req2 : CreateOrderRequest)
    (now now2 : Nat) (oid oid2 : String) (q q2 : Bool) (resp : OrderCreatedResponse)
    (hsame : req2.cartId = req.cartId)
    (h : create_order w req now oid q none = (w1, .ok resp)) :
    create_order w1 req2 now2 oid2 q2 none =
      (w1, .error (.httpError 404 "Cart is empty")) := by
  obtain ⟨-, hci, -, -, -, -, -, -⟩ := create_order_ok_parts w w1 req now oid q resp h
  rw [create_order_none_eq]
  have hempty : w1.db.cartItems.filter (fun it => it.cartId == req2.cartId) = [] := by
    rw [hci, hsame]
    exact filter_filter_not _ _
  rw [hempty]
  simp

/-- Claim C1 witness: after the sample conversion of cart c1 succeeds, a
second call on c1 fails with the 404 empty-cart error and changes
nothing. -/
theorem claim_C1_second_call_witness :
    create_order (create_order sampleWorld sampleReq 5 "o1" true none).1
        sampleReq 6 "o2" false none =
      ((create_order sampleWorld sampleReq 5 "o1" true none).1,
        .error (.httpError 404 "Cart is empty")) :=
  claim_C1_second_call_empty_cart sampleWorld
    (create_order sampleWorld sampleReq 5 "o1" true none).1 sampleReq sampleReq
    5 6 "o1" "o2" true false sampleResp rfl (by rfl)

/-- Claim C1 counterexample: of two serialized `create_order` calls on
cart c1, the first succeeds and the second fails with the 404 "Cart is
empty" error — the spec's EmptyCartError shape — and not with a
CartUnavailableError, which nothing in the code can produce; so the claim
that every loser receives CartUnavailableError is false on this input. -/
theorem claim_C1_counterexample :
    (create_order sampleWorld sampleReq 5 "o1" true none).2 = .ok sampleResp ∧
    (create_order (create_order sampleWorld sampleReq 5 "o1" true none).1
      sampleReq 6 "o2" true none).2 = .error (.httpError 404 "Cart is empty") :=
  ⟨rfl, rfl⟩

/-- Claim C3 (amended): whenever `create_order` fails, every storage write
of the transaction is rolled back — no order, no order items, the cart and
its items unchanged (there is no lifecycle flag and no outbox record to
speak of) — and the cache is untouched, so the caller may retry; the SQS
publish, however, is not covered by the rollback (see the
counterexample). -/
theorem claim_C3_storage_rollback (w : World) (req : CreateOrderRequest)
    (now : Nat) (oid : String) (q : Bool) (failAt : Option FailStep)
    (w1 : World) (e : ApiError)
    (h : create_order w req now oid q failAt = (w1, .error e)) :
    w1.db = w.db ∧ w1.cache = w.cache := by
  simp only [create_order] at h
  repeat' split at h
  all_goals rw [Prod.mk.injEq] at h
  all_goals first
    | (rw [← h.1]; exact ⟨rfl, rfl⟩)
    | exact absurd h.2 (by simp)

/-- Claim C3 witness: a failure injected at the order INSERT leaves the
database and cache of the sample world unchanged. -/
theorem claim_C3_storage_rollback_witness :
    (create_order sampleWorld sampleReq 5 "o1" true (some .insertOrder)).1.db =
      sampleWorld.db ∧
    (create_order sampleWorld sampleReq 5 "o1" true (some .insertOrder)).1.cache =
      sampleWorld.cache :=
  claim_C3_storage_rollback sampleWorld sampleReq 5 "o1" true (some .insertOrder)
    (create_order sampleWorld sampleReq 5 "o1" true (some .insertOrder)).1
    orderInfraError (by rfl)

/-- Claim C3 counterexample: a failure injected after the SQS publish but
before commit (at the metrics step) rolls the storage back — no order
persists — yet the OrderCreated event is already on the queue, so the
claim that on a pre-commit failure no event reaches downstream consumers
is false on this input. -/
theorem claim_C3_counterexample :
    (create_order sampleWorld sampleReq 5 "o1" true (some .metrics)).2 =
      .error orderInfraError ∧
    (create_order sampleWorld sampleReq 5 "o1" true (some .metrics)).1.db =
      sampleWorld.db ∧
    (create_order sampleWorld sampleReq 5 "o1" true (some .metrics)).1.sqs =
      [sampleMsg] :=
  ⟨rfl, rfl, rfl⟩

/-- Claim C4 (amended): `create_order` on a cart id with no cart items —
in particular on an absent cart; carts have no claimed or expired state in
the code — aborts without creating an order, leaves the state unchanged,
and fails with the 404 "Cart is empty" error (the spec's EmptyCartError
shape); no CartUnavailableError exists in the code. -/
theorem claim_C4_missing_cart_error (w : World) (req : CreateOrderRequest)
    (now : Nat) (oid : String) (q : Bool)
    (habs : w.db.cartItems.filter (fun it => it.cartId == req.cartId) = []) :
    create_order w req now oid q none =
      (w, .error (.httpError 404 "Cart is empty")) := by
  rw [create_order_none_eq, habs]
  simp

/-- Claim C4 witness: converting cart c1 in a world with no data fails
with the 404 empty-cart error and changes nothing. -/
theorem claim_C4_missing_cart_witness :
    create_order emptyWorld sampleReq 5 "o1" true none =
      (emptyWorld, .error (.httpError 404 "Cart is empty")) :=
  claim_C4_missing_cart_error emptyWorld sampleReq 5 "o1" true rfl

/-- Claim C4 counterexample: `create_order` on the absent cart c1 fails
with the 404 "Cart is empty" error — the EmptyCartError shape that the
claim explicitly rules out — rather than a CartUnavailableError, so the
claim is false on this input (the no-order-created half does hold: the
state is unchanged). -/
theorem claim_C4_counterexample :
    (create_order emptyWorld sampleReq 5 "o1" true none).2 =
      .error (.httpError 404 "Cart is empty") ∧
    (create_order emptyWorld sampleReq 5 "o1" true none).1 = emptyWorld :=
  ⟨rfl, rfl⟩

/-- Claim C5 (amended): after a `create_order` call on a cart id commits,
a `get_cart` call on that id fails with the 404 NotFoundError whenever no
cache entry for the cart is live — the conversion deleted the cart row,
and the cache path is the only way a stale cart can still be served,
because `create_order` never invalidates the cache (see the
counterexample). -/
theorem claim_C5_get_cart_after_commit (w w1 : World) (req : CreateOrderRequest)
    (now : Nat) (oid : String) (q : Bool) (resp : OrderCreatedResponse)
    (h : create_order w req now oid q none = (w1, .ok resp))
    (hc : cacheGet w1.cache ("cart:" ++ req.cartId) = none) :
    get_cart w1 req.cartId = (w1, .error (.httpError 404 "Cart not found")) := by
  obtain ⟨hca, -, -, -, -, -, -, -⟩ := create_order_ok_parts w w1 req now oid q resp h
  have hfind : w1.db.carts.find? (fun c => c.id == req.cartId) = none := by
    rw [hca]
    exact find?_filter_not _ _
  unfold get_cart
  rw [hc, hfind]

/-- Claim C5 witness: after the sample conversion (empty cache), fetching
cart c1 fails with the 404 NotFoundError. -/
theorem claim_C5_get_cart_witness :
    get_cart (create_order sampleWorld sampleReq 5 "o1" true none).1 "c1" =
      ((create_order sampleWorld sampleReq 5 "o1" true none).1,
        .error (.httpError 404 "Cart not found")) :=
  claim_C5_get_cart_after_commit sampleWorld
    (create_order sampleWorld sampleReq 5 "o1" true none).1 sampleReq 5 "o1" true
    sampleResp (by rfl) (by rfl)

/-- Claim C5 counterexample: when cart c1 is still cached, `create_order`
commits (deleting the cart from storage) without invalidating the cache,
and the next `get_cart` returns the stale active-shaped cart view from the
cache instead of the 404 NotFoundError — so the claim that a cached entry
never yields an active-shaped cart after commit is false on this input. -/
theorem claim_C5_counterexample :
    (create_order cachedWorld sampleReq 5 "o1" true none).2 = .ok sampleResp ∧
    (get_cart (create_order cachedWorld sampleReq 5 "o1" true none).1 "c1").2 =
      .ok staleView :=
  ⟨rfl, rfl⟩

/-- Claim C6 (amended): `update_order_status` performs no transition
check: for any existing order — whatever its current status, including the
terminal completed and cancelled — and any requested status string, the
call succeeds and sets the requested status; no InvalidTransitionError
exists in the code, and the only failure is 404 for a missing order. -/
theorem claim_C6_any_transition_succeeds (w : World) (orderId newStatus : String)
    (now : Nat) (o : OrderRow) (hmem : o ∈ w.db.orders) (hid : o.id = orderId) :
    ∃ w1 : World, update_order_status w orderId newStatus now =
        (w1, .ok "Order status updated successfully") ∧
      ∀ o1 ∈ w1.db.orders, o1.id = orderId → o1.status = newStatus := by
  have hne : ¬ (w.db.orders.filter (fun o2 => o2.id == orderId)).isEmpty = true := by
    rw [List.isEmpty_iff]
    intro hnil
    have hm : o ∈ w.db.orders.filter (fun o2 => o2.id == orderId) :=
      List.mem_filter.mpr ⟨hmem, by simp [hid]⟩
    rw [hnil] at hm
    exact absurd hm (List.not_mem_nil o)
  simp only [update_order_status]
  rw [if_neg hne]
  refine ⟨_, rfl, ?_⟩
  intro o1 ho1 hid1
  obtain ⟨o2, -, rfl⟩ := List.mem_map.mp ho1
  by_cases h2 : (o2.id == orderId) = true
  · simp [h2]
  · simp [h2] at hid1
    simp at h2
    exact absurd hid1 h2

/-- Claim C6 witness: the transition completed → cancelled, forbidden by
the spec, succeeds on the sample completed order. -/
theorem claim_C6_any_transition_witness :
    ∃ w1 : World, update_order_status orderWorld "o9" "cancelled" 7 =
        (w1, .ok "Order status updated successfully") ∧
      ∀ o1 ∈ w1.db.orders, o1.id = "o9" → o1.status = "cancelled" :=
  claim_C6_any_transition_succeeds orderWorld "o9" "cancelled" 7 completedOrder
    (by decide) rfl

/-- Claim C6 counterexample: `update_order_status` moves order o9 out of
the terminal status completed — even back to pending — and reports
success, where the claim requires an InvalidTransitionError and an
unchanged status; so the claim is false on this input. -/
theorem claim_C6_counterexample :
    (update_order_status orderWorld "o9" "pending" 7).2 =
      .ok "Order status updated successfully" ∧
    (update_order_status orderWorld "o9" "pending" 7).1.db.orders =
      [OrderRow.mk "o9" "u1" "pending" 2000 "USD" 1 7] :=
  ⟨rfl, rfl⟩

/-- Claim C10 (confirmed): a successful `update_order_status` call touches
nothing but the status and updated_at of the rows matching the given
order id: cache, queue, carts, cart items, products and order items are
untouched, each order keeps its id, user_id, total, currency and
created_at, and every order whose id differs from the target is entirely
unchanged (`List.Forall₂` pairs the orders of the post-state with those of
the pre-state positionally, so no row is added, dropped or reordered). -/
theorem claim_C10_update_frame (w : World) (orderId newStatus : String)
    (now : Nat) (w1 : World) (m : String)
    (h : update_order_status w orderId newStatus now = (w1, .ok m)) :
    w1.cache = w.cache ∧ w1.sqs = w.sqs ∧
    w1.db.carts = w.db.carts ∧ w1.db.cartItems = w.db.cartItems ∧
    w1.db.products = w.db.products ∧ w1.db.orderItems = w.db.orderItems ∧
    List.Forall₂ (fun o1 o : OrderRow =>
      (o1.id = o.id ∧ o1.userId = o.userId ∧ o1.total = o.total ∧
       o1.currency = o.currency ∧ o1.createdAt = o.createdAt) ∧
      (o.id ≠ orderId → o1 = o)) w1.db.orders w.db.orders := by
  simp only [update_order_status] at h
  split at h
  · rw [Prod.mk.injEq] at h
    exact absurd h.2 (by simp)
  · rw [Prod.mk.injEq] at h
    obtain ⟨h1, -⟩ := h
    rw [← h1]
    refine ⟨rfl, rfl, rfl, rfl, rfl, rfl, ?_⟩
    rw [List.forall₂_map_left_iff, List.forall₂_same]
    intro o2 _
    by_cases h2 : o2.id = orderId
    · exact ⟨by simp [h2], fun hne => absurd h2 hne⟩
    · exact ⟨by simp [h2], fun _ => by simp [h2]⟩

/-- Claim C10 witness: updating order o9 to completed changes only its
status and updated_at; everything else in the world is unchanged. -/
theorem claim_C10_update_frame_witness :
    (update_order_status orderWorld "o9" "completed" 7).1.cache = orderWorld.cache ∧
    (update_order_status orderWorld "o9" "completed" 7).1.sqs = orderWorld.sqs ∧
    (update_order_status orderWorld "o9" "completed" 7).1.db.carts = orderWorld.db.carts ∧
    (update_order_status orderWorld "o9" "completed" 7).1.db.cartItems = orderWorld.db.cartItems ∧
    (update_order_status orderWorld "o9" "completed" 7).1.db.products = orderWorld.db.products ∧
    (update_order_status orderWorld "o9" "completed" 7).1.db.orderItems = orderWorld.db.orderItems ∧
    List.Forall₂ (fun o1 o : OrderRow =>
      (o1.id = o.id ∧ o1.userId = o.userId ∧ o1.total = o.total ∧
       o1.currency = o.currency ∧ o1.createdAt = o.createdAt) ∧
      (o.id ≠ "o9" → o1 = o))
      (update_order_status orderWorld "o9" "completed" 7).1.db.orders
      orderWorld.db.orders :=
  claim_C10_update_frame orderWorld "o9" "completed" 7
    (update_order_status orderWorld "o9" "completed" 7).1
    "Order status updated successfully" (by rfl)

end ShopMetrics
